import Mathlib

/-!
Verification development for the PreloadMovieNight pre-caching tool
(src/PythonVersion/precache-movie-night.py).

The definitions below are a shallow embedding of the Python source.  Pure
string manipulation is translated to Lean functions on `String`/`List Char`;
Python exceptions are modeled with `Except PyError`; the network and the file
system are modeled explicitly: HTTP responses come from an `HttpEnv` record,
the download directory is a list of present paths, and every observable side
effect of the run (console messages, HTTP requests, file writes, file
removals) is recorded as an event in order.
-/

set_option maxRecDepth 4000

/-- Python exceptions that the modeled code can raise. -/
inductive PyError where
  | attributeError
  | zeroDivisionError
  | jsonDecodeError
  | runtimeError
  deriving DecidableEq, Repr

/-- The single-quote character (codepoint 39). -/
def squote : Char := Char.ofNat 39

/-- The double-quote character. -/
def dquote : Char := Char.ofNat 34

/-- The character class of the regex at line 21 of the source:
STRIP_QUOTES matches a single or a double quote at either end. -/
def is_quote_char (c : Char) : Bool := c = dquote || c = squote

/-- Helper for the regex model: `t` can be written `mid ++ q2` with `q2` a
quote character and `mid` free of newlines (`.` in a Python regex does not
cross a newline). -/
def quoted_body (t : List Char) : Bool :=
  match t.getLast? with
  | some c => is_quote_char c && t.dropLast.all (fun x => x != Char.ofNat 10)
  | none => false

/-- Model of the test "STRIP_QUOTES.match(value) is not None" for the pattern
at line 21 of the source.  The anchored
match succeeds exactly when the value is a quote character, then a
newline-free body, then a quote character, optionally followed by one final
newline (Python regex anchors the end also just before a trailing newline). -/
def strip_quotes_found (s : String) : Bool :=
  match s.data with
  | [] => false
  | q1 :: t =>
    is_quote_char q1 &&
      (quoted_body t ||
        (match t.getLast? with
         | some nl => nl = Char.ofNat 10 && quoted_body t.dropLast
         | none => false))

/-- Model of Config._maybe_str_lit (lines 173-180).  The walrus expression in
the source parses as binding m to the Boolean value of
"STRIP_QUOTES.match(value) is not None"; when that Boolean is True the body
evaluates m.group(1) on a bool, which raises AttributeError.  When the regex
does not match, the value is returned unchanged. -/
def maybe_str_lit (value : Option String) : Except PyError (Option String) :=
  match value with
  | none => Except.ok none
  | some v =>
    if strip_quotes_found v then Except.error PyError.attributeError
    else Except.ok (some v)

/-- Model of Config.get (lines 191-193).  ConfigParser.get with a fallback
returns the stored value when the option is present and the fallback
otherwise; the result is then passed through _maybe_str_lit. -/
def config_get (stored fallback : Option String) : Except PyError (Option String) :=
  maybe_str_lit (match stored with
    | some s => some s
    | none => fallback)

-- quick sanity checks of the regex model
example : strip_quotes_found "abc" = false := by decide
example : strip_quotes_found "MovieNight" = false := by decide
example : quoted_body "abc".data = false := by decide

/-! ## URL parsing (urllib.parse.urlsplit, restricted to what the tool uses) -/

/-- Characters allowed in a URL scheme after the first letter
(urllib.parse.scheme_chars). -/
def scheme_char_ok (c : Char) : Bool :=
  c.isAlpha || c.isDigit || c = Char.ofNat 43 || c = Char.ofNat 45 || c = Char.ofNat 46

/-- Scheme split of urlsplit: when the text before the first colon is a
letter followed by scheme characters, that part (lowercased) is the scheme
and the remainder follows the colon; otherwise there is no scheme. -/
def split_scheme (l : List Char) : List Char × List Char :=
  match l.findIdx? (fun c => c == Char.ofNat 58) with
  | none => ([], l)
  | some i =>
    if i = 0 then ([], l)
    else
      let head := l.take i
      if (head.headD (Char.ofNat 32)).isAlpha && head.all scheme_char_ok then
        (head.map Char.toLower, l.drop (i + 1))
      else ([], l)

/-- Netloc split of urlsplit: when the remainder after the scheme starts with
two slashes, the netloc runs to the next slash, question mark or hash. -/
def netpath_split (l : List Char) : List Char × List Char :=
  match l with
  | c1 :: c2 :: rest =>
    if c1 == Char.ofNat 47 && c2 == Char.ofNat 47 then
      let stop := fun c : Char => c == Char.ofNat 47 || c == Char.ofNat 63 || c == Char.ofNat 35
      (rest.takeWhile (fun c => !stop c), rest.dropWhile (fun c => !stop c))
    else ([], l)
  | _ => ([], l)

/-- Model of urllib.parse.urlparse restricted to the fields the tool reads:
(scheme, netloc, path).  The fragment (after the first hash) and the query
(after the first question mark) are split off and dropped; the params split
and netloc bracket validation of the library are not modeled because no
claim depends on them. -/
def urlsplit (url : String) : String × String × String :=
  let sr := split_scheme url.data
  let np := netpath_split sr.2
  let nofrag := np.2.takeWhile (fun c => c != Char.ofNat 35)
  let path := nofrag.takeWhile (fun c => c != Char.ofNat 63)
  (String.mk sr.1, String.mk np.1, String.mk path)

/-- The netloc field of urlparse, used by main (line 48-49) to decide whether
a reference is fully qualified. -/
def netloc (url : String) : String := (urlsplit url).2.1

/-- The path field of urlparse, used at line 66. -/
def url_path (url : String) : String := (urlsplit url).2.2

/-- Model of os.path.basename on POSIX: the part after the last slash. -/
def basename (p : String) : String :=
  String.mk ((p.data.reverse.takeWhile (fun c => c != Char.ofNat 47)).reverse)

example : netloc "" = "" := by decide
example : netloc "playlist.json" = "" := by decide
example : netloc "http://host/files" = "host" := by decide
example : basename (url_path "http://host/files/a.mp4?x=1") = "a.mp4" := by decide

/-! ## Encoding detection (Config._detect_known_encoding and _try_read) -/

/-- The BOM table Config._WELL_DEFINED_ENCODING (lines 139-145), in source
order. -/
def WELL_DEFINED_ENCODING : List (String × List Nat) :=
  [("utf-8-sig", [0xef, 0xbb, 0xbf]),
   ("utf-16-le", [0xff, 0xfe]),
   ("utf-16-be", [0xfe, 0xff]),
   ("utf-32-le", [0xff, 0xfe, 0x00, 0x00]),
   ("utf-32-be", [0x00, 0x00, 0xfe, 0xff])]

/-- Model of Config._detect_known_encoding (lines 147-153): read the first
four bytes of the file and return the encoding of the first table entry whose
BOM is a prefix of them, or the empty string. -/
def detect_known_encoding (file_bytes : List Nat) : String :=
  let raw_bytes := file_bytes.take 4
  match WELL_DEFINED_ENCODING.find? (fun p => p.2.isPrefixOf raw_bytes) with
  | some p => p.1
  | none => ""

/-- Model of the candidate list built in Config._try_read (lines 160-162):
utf-8, utf-16, cp1252, with the BOM hint inserted in front when non-empty. -/
def possible_encodings (file_hint : String) : List String :=
  if file_hint ≠ "" then file_hint :: ["utf-8", "utf-16", "cp1252"]
  else ["utf-8", "utf-16", "cp1252"]

/-! ## Download-directory candidate (main, lines 34-37) -/

/-- Model of str.replace for the single-character replacement at line 36:
every backslash becomes a forward slash. -/
def replace_backslashes (s : String) : String :=
  String.mk (s.data.map (fun c => if c = Char.ofNat 92 then Char.ofNat 47 else c))

/-- Model of lines 34-37 of main: the string actually passed to Path(...) as
the download-directory candidate.  On a non-Windows platform with a backslash
in the value, line 36 evaluates path_candidate.replace and discards the
result (strings are immutable), so the original value flows on unchanged. -/
def effective_path_candidate (is_windows : Bool) (path_candidate : String) : String :=
  if is_windows = false ∧ path_candidate.data.contains (Char.ofNat 92) then
    let _discarded := replace_backslashes path_candidate
    path_candidate
  else path_candidate

/-! ## Progress hook (with_name, lines 126-129) -/

/-- Model of the download_hook closure returned by with_name.  Python float
arithmetic is modeled over the rationals; round(..., 2) and the fixed-point
rendering only format the number and are not modeled — the hook returns the
exact percentage it would print.  A zero total size raises ZeroDivisionError
exactly as the division in the source does. -/
def download_hook (count block_size total_size : Int) : Except PyError ℚ :=
  if total_size = 0 then Except.error PyError.zeroDivisionError
  else Except.ok (((count : ℚ) * (block_size : ℚ)) / (total_size : ℚ) * 100)

/-! ## The run: playlist validation and the download loop (main, lines 43-80) -/

/-- JSON values as json.load can produce them. -/
inductive JsonVal where
  | str (s : String)
  | num (n : Int)
  | boolean (b : Bool)
  | null
  | arr (xs : List JsonVal)
  | obj (fields : List (String × JsonVal))

/-- Model of is_str_list (lines 101-102): a Python list all of whose elements
are strings. -/
def is_str_list (v : JsonVal) : Bool :=
  match v with
  | JsonVal.arr xs => xs.all (fun x => match x with
      | JsonVal.str _ => true
      | _ => false)
  | _ => false

/-- The strings of a JSON array (total; under is_str_list it is the whole
list, in order). -/
def json_strings (v : JsonVal) : List String :=
  match v with
  | JsonVal.arr xs => xs.filterMap (fun x => match x with
      | JsonVal.str s => some s
      | _ => none)
  | _ => []

/-- The observable effects of a run, in order.  Console colour codes and the
exception text appended to error messages are not tracked. -/
inductive Ev where
  | printed (msg : String)
  | errorMsg (msg : String)
  | fatalMsg (msg : String)
  | playlistRequest (uri : String)
  | fileRequest (uri : String)
  | wroteFile (path : String)
  | removedFile (path : String)
  deriving DecidableEq, Repr

/-- How the modeled part of main ends. -/
inductive RunExit where
  | fatalExit
  | raised (e : PyError)
  | completed (count total : Nat)
  deriving DecidableEq, Repr

/-- Result of a modeled run: ordered events, files present in the download
directory afterwards, and the way the run ended. -/
structure RunResult where
  events : List Ev
  pFiles : List String
  exit : RunExit

/-- The behaviour of the HTTP servers and of the per-file transfers during
one run: status code and parsed body of the playlist response (none models a
body that json.load rejects), and whether urlretrieve succeeds for a given
file URI (false models any exception raised during the transfer: a non-2xx
HTTPError from urlopen, a network failure, or an I/O failure). -/
structure HttpEnv where
  playlist_code : Nat
  playlist_body : Option JsonVal
  retrieve_ok : String → Bool

/-- The download directory as a set of present paths; urlretrieve overwrites,
so a successful write just ensures presence. -/
def fsInsert (fs : List String) (p : String) : List String :=
  if fs.contains p then fs else p :: fs

/-- Model of try_unlink (lines 109-113): remove the file if present; the
IOError from an absent file is swallowed, so this never raises. -/
def fsRemove (fs : List String) (p : String) : List String :=
  fs.filter (fun q => q != p)

/-- Source message at line 45. -/
def msg_playlist_required : String := "Playlist is not optional in a Server Configuration .ini!"

/-- Source message at line 50. -/
def msg_need_qualified : String := "A fully qualified url is required when DownloadServer is empty for playlist."

/-- Source message at line 60. -/
def msg_bad_json : String := "Unexpected server response after retrieving json! Expected array of strings."

/-- Source message at line 74 (without the appended exception text). -/
def msg_download_failed : String := " Failed to download file."

/-- Source message at line 76. -/
def msg_complete : String := " Complete."

/-- Source message at line 79. -/
def summary_msg (count total : Nat) : String :=
  "Successfully download " ++ toString count ++ " of " ++ toString total ++ " into cache."

/-- One iteration of the download loop (lines 63-77).  The state is
(events so far, files present, count).  jfn stands for urllib.parse.urljoin
(an external collaborator, passed in as a function); dsu is
download_server_uri and dir the resolved download directory.  On success
urlretrieve writes the target file; on any exception try_unlink removes the
target path (a partial or stale file) and an error is printed.  The
" Complete." print and the increment of count happen on both paths, exactly
as in the source, where they sit outside the try/except. -/
def entry_step (jfn : String → String → String) (dsu dir : String) (env : HttpEnv)
    (st : List Ev × List String × Nat) (filename : String) : List Ev × List String × Nat :=
  let file_uri := jfn dsu filename
  let bname := basename (url_path file_uri)
  let file_path := dir ++ "/" ++ bname
  let evs := st.1 ++ [Ev.printed ("Downloading " ++ bname ++ "..."), Ev.fileRequest file_uri]
  if env.retrieve_ok file_uri then
    (evs ++ [Ev.wroteFile file_path, Ev.printed msg_complete],
     fsInsert st.2.1 file_path, st.2.2 + 1)
  else
    (evs ++ [Ev.removedFile file_path, Ev.errorMsg msg_download_failed, Ev.printed msg_complete],
     fsRemove st.2.1 file_path, st.2.2 + 1)

/-- Lines 54-80 of main: the playlist response has been requested; check the
status code, parse the body, validate its shape, then run the download loop
and print the summary.  fs0 is the initial content of the download
directory. -/
def after_fetch (jfn : String → String → String) (dsu dir : String) (playlist_uri : String)
    (fs0 : List String) (env : HttpEnv) : RunResult :=
  if env.playlist_code ≠ 200 then
    { events := [Ev.fatalMsg ("Unable to find the file at " ++ playlist_uri ++ ". Unable to continue.")],
      pFiles := fs0, exit := RunExit.fatalExit }
  else
    match env.playlist_body with
    | none => { events := [], pFiles := fs0, exit := RunExit.raised PyError.jsonDecodeError }
    | some j =>
      if is_str_list j then
        let names := json_strings j
        let r := names.foldl (entry_step jfn dsu dir env) (([] : List Ev), fs0, 0)
        { events := r.1 ++ [Ev.printed (summary_msg r.2.2 names.length)],
          pFiles := r.2.1, exit := RunExit.completed r.2.2 names.length }
      else
        { events := [Ev.fatalMsg msg_bad_json], pFiles := fs0, exit := RunExit.fatalExit }

/-- Lines 43-80 of main, starting after the download directory has been
resolved.  playlist_config and download_server are the results of the two
Config.get calls (none models an absent key).  An empty or absent Playlist is
fatal (line 44); urlparse(None) for an absent DownloadServer raises (line
48); when neither reference has a netloc the run is fatal before any network
request (lines 49-50); otherwise the playlist is requested and processing
continues in after_fetch. -/
def main_resolve (jfn : String → String → String) (dir : String) (fs0 : List String)
    (playlist_config download_server : Option String) (env : HttpEnv) : RunResult :=
  match playlist_config with
  | none =>
    { events := [Ev.fatalMsg msg_playlist_required], pFiles := fs0, exit := RunExit.fatalExit }
  | some pc =>
    if pc = "" then
      { events := [Ev.fatalMsg msg_playlist_required], pFiles := fs0, exit := RunExit.fatalExit }
    else
      match download_server with
      | none => { events := [], pFiles := fs0, exit := RunExit.raised PyError.attributeError }
      | some ds =>
        if netloc ds = "" ∧ netloc pc = "" then
          { events := [Ev.fatalMsg msg_need_qualified], pFiles := fs0, exit := RunExit.fatalExit }
        else
          let dsu := if ds ≠ "" then ds ++ "/" else ""
          let playlist_uri := jfn dsu pc
          let r := after_fetch jfn dsu dir playlist_uri fs0 env
          { events := Ev.playlistRequest playlist_uri :: r.events,
            pFiles := r.pFiles, exit := r.exit }

/-- True when the event list contains no per-file content request and no file
write. -/
def no_file_activity (evs : List Ev) : Bool :=
  evs.all (fun e => match e with
    | Ev.fileRequest _ => false
    | Ev.wroteFile _ => false
    | _ => true)

/-- True when the event list contains no HTTP request at all. -/
def no_network (evs : List Ev) : Bool :=
  evs.all (fun e => match e with
    | Ev.playlistRequest _ => false
    | Ev.fileRequest _ => false
    | _ => true)

/-- A concrete stand-in for urljoin used to evaluate the model on closed
inputs: plain concatenation (what urljoin does for a relative filename
against a directory-style base). -/
def join_concat (base rel : String) : String := base ++ rel

/-! ## Concrete environments used to evaluate the model -/

/-- Two-entry playlist; the server returns 200 for a.mp4 and 404 (an
HTTPError from urlretrieve) for b.mp4. -/
def env_two_entries : HttpEnv :=
  { playlist_code := 200,
    playlist_body := some (JsonVal.arr [JsonVal.str "a.mp4", JsonVal.str "b.mp4"]),
    retrieve_ok := fun u => u == "http://host/files/a.mp4" }

/-- The playlist body parses as a JSON object, not a list. -/
def env_object_body : HttpEnv :=
  { playlist_code := 200,
    playlist_body := some (JsonVal.obj [("not", JsonVal.str "a list")]),
    retrieve_ok := fun _ => true }

/-- The playlist body is the empty JSON list. -/
def env_empty_playlist : HttpEnv :=
  { playlist_code := 200,
    playlist_body := some (JsonVal.arr []),
    retrieve_ok := fun _ => true }

/-- A single-entry playlist whose download always fails. -/
def env_one_failing : HttpEnv :=
  { playlist_code := 200,
    playlist_body := some (JsonVal.arr [JsonVal.str "b.mp4"]),
    retrieve_ok := fun _ => false }

/-! ## Helper lemmas -/

/-- After try_unlink, the removed path is no longer present. -/
theorem fsRemove_not_mem (fs : List String) (p : String) : p ∉ fsRemove fs p := by
  intro hmem
  have h := List.of_mem_filter hmem
  simp at h

/-- Every iteration of the download loop increments count by one, on the
success branch and on the failure branch alike. -/
theorem entry_step_snd (jfn : String → String → String) (dsu dir : String) (env : HttpEnv)
    (st : List Ev × List String × Nat) (f : String) :
    (entry_step jfn dsu dir env st f).2.2 = st.2.2 + 1 := by
  cases hb : env.retrieve_ok (jfn dsu f) <;> simp [entry_step, hb]

/-- The loop processes every entry: the final count is the initial count plus
the number of entries, whatever the per-entry outcomes are. -/
theorem loop_count (jfn : String → String → String) (dsu dir : String) (env : HttpEnv)
    (names : List String) :
    ∀ st : List Ev × List String × Nat,
      (names.foldl (entry_step jfn dsu dir env) st).2.2 = st.2.2 + names.length := by
  induction names with
  | nil => intro st; simp
  | cons f t ih =>
    intro st
    simp only [List.foldl_cons, List.length_cons]
    rw [ih, entry_step_snd]
    omega

/-- Replacing every backslash by a slash leaves no backslash behind. -/
theorem map_no_backslash (l : List Char) :
    Char.ofNat 92 ∉ l.map (fun c => if c = Char.ofNat 92 then Char.ofNat 47 else c) := by
  intro hmem
  rcases List.mem_map.mp hmem with ⟨c, _hc, heq⟩
  by_cases h : c = Char.ofNat 92
  · rw [if_pos h] at heq
    exact absurd heq (by decide)
  · rw [if_neg h] at heq
    exact h heq

/-! ## Claims -/

/-- Claim C1: the claim says Config.get unwraps one matching quote pair,
returns mismatched or unquoted values unchanged and never raises.  On the
code, _maybe_str_lit raises AttributeError whenever the STRIP_QUOTES regex
matches — for a matched pair and for a mismatched pair alike — because the
walrus binds m to a Boolean and then m.group(1) is evaluated on a bool.
Only an unquoted value is returned unchanged.  This theorem evaluates the
model at both failing inputs and at an unquoted one. -/
theorem c1_quote_stripping_raises :
    maybe_str_lit (some (String.mk (dquote :: 'a' :: 'b' :: 'c' :: [dquote])))
      = Except.error PyError.attributeError ∧
    maybe_str_lit (some (String.mk (squote :: 'a' :: 'b' :: 'c' :: [dquote])))
      = Except.error PyError.attributeError ∧
    maybe_str_lit (some "abc") = Except.ok (some "abc") :=
  ⟨rfl, rfl, rfl⟩

/-- Claim C2: the claim says the summary reports the number of entries whose
download succeeded, 1 of 2 for a two-entry playlist with one 404.  On the
code, count is incremented outside the try/except on every iteration, so the
run with a.mp4 succeeding and b.mp4 failing ends with summary 2 of 2. -/
theorem c2_summary_counts_failures :
    (main_resolve join_concat "/cache" [] (some "playlist.json") (some "http://host/files")
        env_two_entries).exit = RunExit.completed 2 2 ∧
    RunExit.completed 2 2 ≠ RunExit.completed 1 2 :=
  ⟨by decide, by decide⟩

/-- A config file holding the text [A] followed by a newline, encoded in
UTF-32-LE with its BOM ff fe 00 00. -/
def utf32le_file : List Nat :=
  [0xff, 0xfe, 0x00, 0x00,
   0x5b, 0x00, 0x00, 0x00, 0x41, 0x00, 0x00, 0x00,
   0x5d, 0x00, 0x00, 0x00, 0x0a, 0x00, 0x00, 0x00]

/-- Claim C3: the claim says the BOM-hinted encoding is used when one of the
five signatures (including UTF-32-LE) matches, and that a file in any
supported signature loads with the same values as UTF-8.  On the code, the
UTF-16-LE entry ff fe precedes the UTF-32-LE entry ff fe 00 00 in
_WELL_DEFINED_ENCODING and is a prefix of it, so a UTF-32-LE file is detected
as utf-16-le and the utf-32-le codec never appears among the tried
candidates: the file is decoded as UTF-16-LE with interleaved NUL
characters instead. -/
theorem c3_utf32le_bom_shadowed :
    detect_known_encoding utf32le_file = "utf-16-le" ∧
    "utf-32-le" ∉ possible_encodings (detect_known_encoding utf32le_file) := by
  constructor
  · rfl
  · decide

/-- Counterexample for claim C4: the claim says a failing entry is recorded
as failed.  On the code there is no failure record: the run with one entry
whose download raises still ends with summary count 1 (the entry is counted
exactly like a success, and the claim would require a succeeded count of 0). -/
theorem c4_counterexample_failure_counted :
    (main_resolve join_concat "/d" ["/d/b.mp4"] (some "p.json") (some "http://host")
        env_one_failing).exit = RunExit.completed 1 1 ∧
    RunExit.completed 1 1 ≠ RunExit.completed 0 1 :=
  ⟨by decide, by decide⟩

/-- Counterexample for claim C6: the claim says an empty JSON list fails
validation fatally before any download.  On the code, is_str_list([]) is
vacuously true, so the empty playlist passes validation and the run completes
normally with summary 0 of 0 instead of exiting fatally. -/
theorem c6_counterexample_empty_list_accepted :
    (main_resolve join_concat "/d" [] (some "p.json") (some "http://host")
        env_empty_playlist).exit = RunExit.completed 0 0 ∧
    RunExit.completed 0 0 ≠ RunExit.fatalExit :=
  ⟨by decide, by decide⟩

/-- Counterexample for claim C8: the claim says an absent key makes get
return the fallback byte-for-byte with no quote-stripping applied to it.  On
the code the fallback is passed through _maybe_str_lit like any stored value:
a quote-wrapped fallback reaches the broken quote-stripping branch and the
call raises AttributeError instead of returning the fallback. -/
theorem c8_counterexample_quoted_fallback :
    config_get none (some (String.mk (dquote :: 'c' :: 'f' :: 'g' :: [dquote])))
      = Except.error PyError.attributeError ∧
    Except.error PyError.attributeError
      ≠ (Except.ok (some (String.mk (dquote :: 'c' :: 'f' :: 'g' :: [dquote])))
          : Except PyError (Option String)) :=
  ⟨rfl, fun h => Except.noConfusion h⟩

/-- Counterexample for claim C9: the claim says progress reporting never
fails for any reported total size, including zero.  On the code the hook
divides by total_size with no guard, so a reported total size of zero raises
ZeroDivisionError inside the callback (which aborts the transfer and makes
the entry fail). -/
theorem c9_counterexample_zero_total :
    download_hook 1 8192 0 = Except.error PyError.zeroDivisionError := rfl

/-- Claim C4 (amended): a per-entry failure is recovered locally — the
target path is absent afterwards (any partial or pre-existing file removed),
an error message is emitted, processing continues and the batch is never
aborted — but the entry is not recorded as failed: the completion message is
printed for it and it is counted in the summary exactly like a success. -/
theorem c4_failure_recovered_locally (jfn : String → String → String) (dsu dir : String)
    (env : HttpEnv) (evs : List Ev) (fs : List String) (count : Nat) (f : String)
    (hf : env.retrieve_ok (jfn dsu f) = false) :
    (dir ++ "/" ++ basename (url_path (jfn dsu f)))
        ∉ (entry_step jfn dsu dir env (evs, fs, count) f).2.1 ∧
    Ev.errorMsg msg_download_failed ∈ (entry_step jfn dsu dir env (evs, fs, count) f).1 ∧
    Ev.printed msg_complete ∈ (entry_step jfn dsu dir env (evs, fs, count) f).1 ∧
    (entry_step jfn dsu dir env (evs, fs, count) f).2.2 = count + 1 ∧
    (∀ names : List String,
      (names.foldl (entry_step jfn dsu dir env) (evs, fs, count)).2.2 = count + names.length) := by
  refine ⟨?_, ?_, ?_, ?_, ?_⟩
  · simp only [entry_step, hf, if_false]
    exact fsRemove_not_mem fs _
  · simp [entry_step, hf]
  · simp [entry_step, hf]
  · simp [entry_step, hf]
  · intro names
    simpa using loop_count jfn dsu dir env names (evs, fs, count)

/-- Witness for c4_failure_recovered_locally at a concrete failing entry. -/
theorem c4_failure_recovered_locally_witness :
    "/d/b.mp4" ∉ (entry_step join_concat "http://host/" "/d" env_one_failing
        ([], ["/d/b.mp4"], 0) "b.mp4").2.1 ∧
    Ev.errorMsg msg_download_failed ∈ (entry_step join_concat "http://host/" "/d"
        env_one_failing ([], ["/d/b.mp4"], 0) "b.mp4").1 ∧
    Ev.printed msg_complete ∈ (entry_step join_concat "http://host/" "/d"
        env_one_failing ([], ["/d/b.mp4"], 0) "b.mp4").1 ∧
    (entry_step join_concat "http://host/" "/d" env_one_failing
        ([], ["/d/b.mp4"], 0) "b.mp4").2.2 = 0 + 1 ∧
    (∀ names : List String,
      (names.foldl (entry_step join_concat "http://host/" "/d" env_one_failing)
        ([], ["/d/b.mp4"], 0)).2.2 = 0 + names.length) :=
  c4_failure_recovered_locally join_concat "http://host/" "/d" env_one_failing
    [] ["/d/b.mp4"] 0 "b.mp4" rfl

/-- Claim C5: a fetched playlist body that parses as JSON but is not a list
of strings makes the run exit fatally with no per-file content request
issued and no file written (the download directory is untouched). -/
theorem c5_bad_playlist_shape_fatal (jfn : String → String → String) (dir : String)
    (fs0 : List String) (pc ds : String) (env : HttpEnv) (j : JsonVal)
    (hpc : pc ≠ "") (hcode : env.playlist_code = 200) (hbody : env.playlist_body = some j)
    (hj : is_str_list j = false) :
    (main_resolve jfn dir fs0 (some pc) (some ds) env).exit = RunExit.fatalExit ∧
    no_file_activity (main_resolve jfn dir fs0 (some pc) (some ds) env).events = true ∧
    (main_resolve jfn dir fs0 (some pc) (some ds) env).pFiles = fs0 := by
  by_cases hq : (netloc ds = "" ∧ netloc pc = "")
  · simp [main_resolve, hpc, hq, no_file_activity]
  · simp [main_resolve, after_fetch, hpc, hq, hcode, hbody, hj, no_file_activity]

/-- Witness for c5_bad_playlist_shape_fatal: the body is a JSON object. -/
theorem c5_bad_playlist_shape_fatal_witness :
    (main_resolve join_concat "/d" [] (some "p.json") (some "http://host")
        env_object_body).exit = RunExit.fatalExit ∧
    no_file_activity (main_resolve join_concat "/d" [] (some "p.json") (some "http://host")
        env_object_body).events = true ∧
    (main_resolve join_concat "/d" [] (some "p.json") (some "http://host")
        env_object_body).pFiles = [] :=
  c5_bad_playlist_shape_fatal join_concat "/d" [] "p.json" "http://host" env_object_body
    (JsonVal.obj [("not", JsonVal.str "a list")]) (by decide) rfl rfl rfl

/-- Claim C6 (amended): an empty JSON list passes validation —
is_str_list accepts it vacuously — and the run, far from failing fatally,
proceeds past validation with nothing to download and completes with summary
0 of 0; no per-file request is issued and no file is written. -/
theorem c6_empty_playlist_completes (jfn : String → String → String) (dir : String)
    (fs0 : List String) (pc ds : String) (env : HttpEnv)
    (hpc : pc ≠ "") (hq : ¬(netloc ds = "" ∧ netloc pc = ""))
    (hcode : env.playlist_code = 200)
    (hbody : env.playlist_body = some (JsonVal.arr [])) :
    is_str_list (JsonVal.arr []) = true ∧
    (main_resolve jfn dir fs0 (some pc) (some ds) env).exit = RunExit.completed 0 0 ∧
    no_file_activity (main_resolve jfn dir fs0 (some pc) (some ds) env).events = true ∧
    (main_resolve jfn dir fs0 (some pc) (some ds) env).pFiles = fs0 := by
  refine ⟨rfl, ?_⟩
  simp [main_resolve, after_fetch, hpc, hq, hcode, hbody, is_str_list, json_strings,
    no_file_activity]

/-- Witness for c6_empty_playlist_completes. -/
theorem c6_empty_playlist_completes_witness :
    is_str_list (JsonVal.arr []) = true ∧
    (main_resolve join_concat "/d" [] (some "p.json") (some "http://host")
        env_empty_playlist).exit = RunExit.completed 0 0 ∧
    no_file_activity (main_resolve join_concat "/d" [] (some "p.json") (some "http://host")
        env_empty_playlist).events = true ∧
    (main_resolve join_concat "/d" [] (some "p.json") (some "http://host")
        env_empty_playlist).pFiles = [] :=
  c6_empty_playlist_completes join_concat "/d" [] "p.json" "http://host" env_empty_playlist
    (by decide) (by decide) rfl rfl

/-- Claim C7: with a non-empty Playlist value, (a) when DownloadServer is the
empty string and the playlist reference has no netloc, the run exits fatally
before any network request; (b) when either reference has a netloc, that
fatal path is not taken and the playlist request is issued. -/
theorem c7_qualification_check (jfn : String → String → String) (dir : String)
    (fs0 : List String) (pc d : String) (env : HttpEnv) (hpc : pc ≠ "") :
    ((d = "" ∧ netloc pc = "") →
      (main_resolve jfn dir fs0 (some pc) (some d) env).exit = RunExit.fatalExit ∧
      no_network (main_resolve jfn dir fs0 (some pc) (some d) env).events = true) ∧
    ((netloc d ≠ "" ∨ netloc pc ≠ "") →
      ∃ u, Ev.playlistRequest u ∈ (main_resolve jfn dir fs0 (some pc) (some d) env).events) := by
  constructor
  · rintro ⟨hd, hpl⟩
    subst hd
    have hq : netloc "" = "" ∧ netloc pc = "" := ⟨rfl, hpl⟩
    simp [main_resolve, hpc, hq, no_network]
  · intro hor
    have hq : ¬(netloc d = "" ∧ netloc pc = "") := by
      rcases hor with h | h
      · exact fun hc => h hc.1
      · exact fun hc => h hc.2
    refine ⟨jfn (if d ≠ "" then d ++ "/" else "") pc, ?_⟩
    simp [main_resolve, hpc, hq]

/-- Witness for c7_qualification_check: part (a) at an empty DownloadServer
with a bare playlist filename, part (b) at a qualified DownloadServer. -/
theorem c7_qualification_check_witness :
    ((main_resolve join_concat "/d" [] (some "p.json") (some "") env_empty_playlist).exit
        = RunExit.fatalExit ∧
      no_network (main_resolve join_concat "/d" [] (some "p.json") (some "")
        env_empty_playlist).events = true) ∧
    (∃ u, Ev.playlistRequest u ∈ (main_resolve join_concat "/d" [] (some "p.json")
        (some "http://host") env_empty_playlist).events) :=
  ⟨(c7_qualification_check join_concat "/d" [] "p.json" "" env_empty_playlist
      (by decide)).1 (by decide),
   (c7_qualification_check join_concat "/d" [] "p.json" "http://host" env_empty_playlist
      (by decide)).2 (by decide)⟩

/-- Claim C8 (amended): when the key is absent from every loaded section,
get passes the caller-supplied fallback through the same string-literal
processing as stored values; a fallback that the STRIP_QUOTES regex does not
match is returned byte-for-byte unchanged. -/
theorem c8_unquoted_fallback_unchanged (fb : String)
    (h : strip_quotes_found fb = false) :
    config_get none (some fb) = Except.ok (some fb) := by
  simp [config_get, maybe_str_lit, h]

/-- Witness for c8_unquoted_fallback_unchanged at the default directory
value. -/
theorem c8_unquoted_fallback_unchanged_witness :
    config_get none (some "./MovieNight") = Except.ok (some "./MovieNight") :=
  c8_unquoted_fallback_unchanged "./MovieNight" (by decide)

/-- Claim C9 (amended): the progress hook never omits the percentage — for a
zero reported total size it raises ZeroDivisionError (failing the entry),
and for any non-zero total size, including the -1 that urlretrieve passes
when the total is unknown, it produces a percentage (meaningless and
negative in the -1 case). -/
theorem c9_hook_behaviour (c b t : Int) :
    (t = 0 → download_hook c b t = Except.error PyError.zeroDivisionError) ∧
    (t ≠ 0 → download_hook c b t
      = Except.ok (((c : ℚ) * (b : ℚ)) / (t : ℚ) * 100)) := by
  constructor <;> intro h <;> simp [download_hook, h]

/-- Witness for c9_hook_behaviour: one 8192-byte block against the unknown
total size -1 yields the percentage -819200, which the source would print. -/
theorem c9_hook_behaviour_witness :
    download_hook 1 8192 (-1) = Except.ok (-819200 : ℚ) := by
  have h := (c9_hook_behaviour 1 8192 (-1)).2 (by decide)
  rw [h]
  norm_num

/-- Claim C10: on a non-Windows run, the backslash-to-slash replacement at
line 36 is computed and discarded, so the candidate string actually used for
the download directory is the original backslash-containing value, not the
replaced one. -/
theorem c10_replace_discarded (s : String)
    (h : Char.ofNat 92 ∈ s.data) :
    effective_path_candidate false s = s ∧
    effective_path_candidate false s ≠ replace_backslashes s := by
  have h1 : effective_path_candidate false s = s := by
    unfold effective_path_candidate
    split <;> rfl
  refine ⟨h1, ?_⟩
  rw [h1]
  intro heq
  have h5 : Char.ofNat 92 ∉ (replace_backslashes s).data := map_no_backslash s.data
  rw [heq] at h
  exact h5 h

/-- Witness for c10_replace_discarded at a concrete backslash path. -/
theorem c10_replace_discarded_witness :
    effective_path_candidate false "C:\\Movies\\Cache" = "C:\\Movies\\Cache" ∧
    effective_path_candidate false "C:\\Movies\\Cache" ≠ replace_backslashes "C:\\Movies\\Cache" :=
  c10_replace_discarded "C:\\Movies\\Cache" (by decide)
